import Mathlib

/-!
Verification development for the Product Approval AI decision engine.

Shallow embedding of the Python sources:
  * `app/models.py`          — `ReviewDecision`, `ReviewRequest`, `ReviewResponse`
  * `app/config.py`          — `Settings` and its defaults
  * `app/services/review_service.py` — `_parse_ai_response`, `_mock_review`,
    and the exception translation of `review_product`
  * `app/api/routes.py`      — the error-to-HTTP-status mapping of the route handler

Python strings are modelled as Lean `String`s; Python's `in` operator on
strings is the contiguous-substring test; `str.lower` is ASCII lowercasing
(all trigger phrases and parsed tokens in the sources are ASCII, so this
agrees with Python on every character the code inspects); `str.strip`
drops leading and trailing whitespace. Code that can raise is modelled in
`Except Unit` (the unit error standing for a Python exception).
-/

/-- Python `needle in haystack` on lists of characters:
`true` iff `needle` occurs contiguously inside `haystack`. -/
def containsSub (needle : List Char) : List Char → Bool
  | [] => needle.isPrefixOf []
  | c :: t => needle.isPrefixOf (c :: t) || containsSub needle t

/-- Python `needle in haystack` on strings. -/
def strContains (haystack needle : String) : Bool :=
  containsSub needle.data haystack.data

/-- Python `s.lower()` (ASCII range; see module comment). -/
def pyLower (s : String) : String :=
  ⟨s.data.map Char.toLower⟩

/-- Python `s.strip()`: remove leading and trailing whitespace. -/
def pyStrip (s : String) : String :=
  ⟨((s.data.dropWhile Char.isWhitespace).reverse.dropWhile Char.isWhitespace).reverse⟩

/-- Python `s[:n]` on a string. -/
def pyTake (s : String) (n : Nat) : String :=
  ⟨s.data.take n⟩

/-- Python `s.startswith(pre)`. -/
def pyStartsWith (s pre : String) : Bool :=
  pre.data.isPrefixOf s.data

/-- Python `s.endswith(suf)`. -/
def pyEndsWith (s suf : String) : Bool :=
  suf.data.reverse.isPrefixOf s.data.reverse

/-- Python `s.split(sep)` for a single-character separator, on the
character list: splitting on `'\n'` turns `"a\nb"` into `["a", "b"]`,
and the empty string into `[""]`, exactly as in Python. -/
def splitOnChar (sep : Char) : List Char → List (List Char)
  | [] => [[]]
  | c :: rest =>
    let r := splitOnChar sep rest
    if c = sep then [] :: r
    else
      match r with
      | [] => [[c]]
      | h :: t => (c :: h) :: t

/-- Python `s.split('\n')`. -/
def pySplitNL (s : String) : List String :=
  (splitOnChar '\n' s.data).map fun l => ⟨l⟩

/-! ## `app/models.py` -/

/-- `ReviewDecision` (models.py): the two possible review decisions. -/
inductive ReviewDecision
  | approve
  | reject
  deriving DecidableEq, Repr

/-- `ReviewResponse` (models.py): decision plus explanation. Pydantic
constrains `explanation` to 10..500 characters at construction; the checked
constructor `mkReviewResponse` below enforces this. -/
structure ReviewResponse where
  decision : ReviewDecision
  explanation : String
  deriving DecidableEq, Repr

/-- Pydantic validation of `ReviewResponse` (models.py lines 44-55):
construction raises unless `10 ≤ len(explanation) ≤ 500`.  The argument is
a `PyVal`-free `String` variant for callers that always pass strings; the
raw-payload path uses `mkReviewResponsePy` below. -/
def mkReviewResponseStr (d : ReviewDecision) (e : String) : Except Unit ReviewResponse :=
  if 10 ≤ e.length ∧ e.length ≤ 500 then .ok ⟨d, e⟩ else .error ()

/-- `ReviewRequest` (models.py): validated request payload; both fields are
stored stripped (the field validators return `v.strip()`). -/
structure ReviewRequest where
  product_name : String
  sales_page : String
  deriving DecidableEq, Repr

/-- Pydantic validation of `ReviewRequest` (models.py lines 14-41):
field constraints (`min_length` / `max_length` on the raw value) run first,
then the `field_validator`s reject whitespace-only values and strip. -/
def mkReviewRequest (product_name sales_page : String) : Except String ReviewRequest :=
  if product_name.length < 1 then .error "product_name: too short"
  else if product_name.length > 200 then .error "product_name: too long"
  else if (pyStrip product_name).length = 0 then
    .error "Product name cannot be empty or just whitespace"
  else if sales_page.length < 10 then .error "sales_page: too short"
  else if sales_page.length > 10000 then .error "sales_page: too long"
  else if (pyStrip sales_page).length = 0 then
    .error "Sales page content cannot be empty or just whitespace"
  else .ok ⟨pyStrip product_name, pyStrip sales_page⟩

/-! ## `app/config.py` -/

/-- `Settings` (config.py): process-wide configuration. -/
structure Settings where
  openai_api_key : String
  openai_model : String
  openai_timeout : Nat
  debug : Bool
  max_content_length : Nat
  use_mock_ai : Bool
  deriving Repr

/-- The field defaults of `Settings` (config.py lines 11-36). -/
def defaultSettings : Settings :=
  { openai_api_key := ""
    openai_model := "gpt-4.1"
    openai_timeout := 30
    debug := false
    max_content_length := 10000
    use_mock_ai := false }

/-! ## `_mock_review` (review_service.py lines 131-167) -/

/-- The ordered rejection trigger list of `_mock_review`. -/
def reject_keywords : List String :=
  ["guaranteed", "overnight", "100% guaranteed", "no risk",
   "lose 15kg", "turn €100 into €10,000", "miracle",
   "get rich quick", "secret formula", "doctors hate"]

/-- The ordered approval trigger list of `_mock_review`. -/
def approve_keywords : List String :=
  ["evidence-based", "research", "psychology", "behavioral science",
   "course", "education", "strategy", "methodology"]

/-- The f-string explanation naming the matched rejection phrase
(review_service.py line 147). -/
def suspiciousExplanation (keyword : String) : String :=
  "Product contains suspicious claims: \x27" ++ keyword ++ "\x27 - requires manual review."

/-- The first rejection keyword (in list order) occurring in the
lower-cased content: the `for keyword in reject_keywords` loop with its
early return. -/
def firstRejectMatch (content_lower : String) : Option String :=
  reject_keywords.find? fun k => strContains content_lower k

/-- The first approval keyword (in list order) occurring in the
lower-cased content: the `for keyword in approve_keywords` loop. -/
def firstApproveMatch (content_lower : String) : Option String :=
  approve_keywords.find? fun k => strContains content_lower k

/-- The `content_lower` local of `_mock_review` (review_service.py line
134): the lower-cased concatenation `f"{product_name} {sales_page}"`. -/
def content_lower (product_name sales_page : String) : String :=
  pyLower (product_name ++ " " ++ sales_page)

/-- `_mock_review` (review_service.py lines 131-167): keyword heuristic over
the lower-cased concatenation of product name and sales page.  Every
explanation it builds is within pydantic's 10..500 bounds (proved below),
so construction never raises and the record is returned directly. -/
def mock_review (product_name sales_page : String) : ReviewResponse :=
  match firstRejectMatch (content_lower product_name sales_page) with
  | some keyword => ⟨.reject, suspiciousExplanation keyword⟩
  | none =>
    match firstApproveMatch (content_lower product_name sales_page) with
    | some _ => ⟨.approve, "Product appears educational and evidence-based."⟩
    | none =>
      ⟨.reject, "Product requires manual review to ensure compliance and quality standards."⟩

/-! ## `_parse_ai_response` (review_service.py lines 86-129)

The function receives the backend's content string.  When the content is
brace-delimited it calls Python's `json.loads`, an external library call
whose outcome we model as an explicit argument `jsonOutcome`: `.error ()`
when `json.loads content` raises, `.ok data` when it returns the object
`data`.  JSON values (and the Python values flowing from `dict.get`) are
modelled by `PyVal`; operations that raise on some `PyVal` shapes —
`.lower()`, `len(...)`, slicing, string concatenation, pydantic string
coercion — are `Except Unit` valued, mirroring exactly which shapes raise
in Python. -/

/-- A Python value decoded from JSON (`json.loads` of an object yields a
dict whose values are strings, numbers, booleans, null, lists or dicts). -/
inductive PyVal
  | str (s : String)
  | num (n : Int)
  | bool (b : Bool)
  | null
  | list (xs : List PyVal)
  | dict (kvs : List (String × PyVal))

/-- Python `data.get(key, default)` on a decoded JSON object. -/
def dictGet (kvs : List (String × PyVal)) (key : String) (dflt : PyVal) : PyVal :=
  match kvs.find? (fun kv => kv.fst == key) with
  | some kv => kv.snd
  | none => dflt

/-- Python `len(v)`: defined for strings, lists and dicts; raises
`TypeError` (here `.error ()`) for numbers, booleans and `None`. -/
def pyLen : PyVal → Except Unit Nat
  | .str s => .ok s.length
  | .list xs => .ok xs.length
  | .dict kvs => .ok kvs.length
  | _ => .error ()

/-- Python `v[:497] + "..."` (review_service.py line 115): succeeds only
when `v` is a string; a dict cannot be sliced and a sliced list cannot be
concatenated with a string, so both raise. -/
def truncateEllipsis : PyVal → Except Unit PyVal
  | .str s => .ok (.str (pyTake s 497 ++ "..."))
  | _ => .error ()

/-- Pydantic validation of `ReviewResponse` fed a raw Python value
(review_service.py lines 119-122): the explanation must be a string of
length 10..500, otherwise construction raises. -/
def mkReviewResponsePy (d : ReviewDecision) (e : PyVal) : Except Unit ReviewResponse :=
  match e with
  | .str s => mkReviewResponseStr d s
  | _ => .error ()

/-- The free-text fallback scan (review_service.py lines 100-106) over the
lower-cased lines: the first line containing `"approve"` but not
`"reject"` decides `"approve"`; otherwise the first line containing
`"reject"` decides `"reject"`; no decisive line leaves the default
`"reject"`. -/
def scanLines : List String → String
  | [] => "reject"
  | line :: rest =>
    if strContains line "approve" && ! strContains line "reject" then "approve"
    else if strContains line "reject" then "reject"
    else scanLines rest

/-- Lines 88-106 of review_service.py: extract the candidate decision
string and candidate explanation value from the content.  Brace-delimited
content goes through `json.loads` (outcome `jsonOutcome`; a raise
propagates) and `data.get(...)`, where `.lower()` on a non-string decision
raises; all other content takes the free-text line scan with the whole
content as candidate explanation. -/
def extractCandidates (jsonOutcome : Except Unit (List (String × PyVal)))
    (content : String) : Except Unit (String × PyVal) :=
  if pyStartsWith content "\x7b" && pyEndsWith content "\x7d" then
    match jsonOutcome with
    | .error u => .error u
    | .ok data =>
      match dictGet data "decision" (.str "") with
      | .str s => .ok (pyLower s, dictGet data "explanation" (.str ""))
      | _ => .error ()
  else
    .ok (scanLines (pySplitNL (pyLower content)), .str content)

/-- Lines 108-117 of review_service.py applied to the candidates: force an
unrecognized decision to `"reject"` with the fixed safety explanation,
then clamp the explanation length. -/
def normalizeCandidates (decision : String) (explanation : PyVal) :
    Except Unit (String × PyVal) :=
  let (d, e) :=
    if decision = "approve" ∨ decision = "reject" then (decision, explanation)
    else ("reject", .str "Unable to determine approval status - rejected for safety")
  match pyLen e with
  | .error u => .error u
  | .ok n =>
    if n > 500 then
      match truncateEllipsis e with
      | .error u => .error u
      | .ok e2 => .ok (d, e2)
    else if n < 10 then
      .ok (d, .str ("Product " ++ d ++ "d based on content analysis."))
    else
      .ok (d, e)

/-- The body of the `try` block of `_parse_ai_response` (lines 88-122):
extraction, normalization, then pydantic construction with
`APPROVE if decision == "approve" else REJECT`. -/
def parseAiResponseTry (jsonOutcome : Except Unit (List (String × PyVal)))
    (content : String) : Except Unit ReviewResponse :=
  match extractCandidates jsonOutcome content with
  | .error u => .error u
  | .ok (decision, explanation) =>
    match normalizeCandidates decision explanation with
    | .error u => .error u
    | .ok (d, e) =>
      mkReviewResponsePy (if d = "approve" then .approve else .reject) e

/-- `_parse_ai_response` (review_service.py lines 86-129): the `try` body
with its `except Exception` handler, which converts any raise into the
fixed safe rejection record. -/
def parse_ai_response (jsonOutcome : Except Unit (List (String × PyVal)))
    (content : String) : ReviewResponse :=
  match parseAiResponseTry jsonOutcome content with
  | .ok r => r
  | .error _ => ⟨.reject, "Unable to process review - rejected for safety"⟩

/-! ## Failure classification

`review_product` (review_service.py lines 65-73) translates each failure of
the backend call into a fresh exception with a fixed message; the route
handler (routes.py lines 79-89) inspects that message to choose the HTTP
status. -/

/-- The three ways the live backend call can fail (review_service.py lines
65-73): `asyncio.wait_for` exceeding the configured timeout raises
`TimeoutError`; the client raises `openai.OpenAIError`; anything else is
caught by the final handler. -/
inductive BackendFailure
  | timeoutErr
  | openAIErr
  | otherErr
  deriving DecidableEq, Repr

/-- The message of the exception `review_product` re-raises for each
failure (review_service.py lines 65-73). -/
def raisedMessage : BackendFailure → String
  | .timeoutErr => "Review service timeout - please try again"
  | .openAIErr => "AI service temporarily unavailable"
  | .otherErr => "Review service error - please try again"

/-- `FailureClass`: the spec's failure taxonomy (§3, §4.5). -/
inductive FailureClass
  | Timeout
  | Unavailable
  | Generic
  deriving DecidableEq, Repr

/-- Modelled from the spec (§4.5 `classify_failure`, the taxonomy side of
routes.py lines 83-89): inspect the error message case-insensitively for
the substring "timeout", then "unavailable", else generic. -/
def classify_failure (error_msg : String) : FailureClass :=
  let m := pyLower error_msg
  if strContains m "timeout" then .Timeout
  else if strContains m "unavailable" then .Unavailable
  else .Generic

/-- The HTTP status the spec assigns to each failure class (§6). -/
def httpStatusOf : FailureClass → Nat
  | .Timeout => 504
  | .Unavailable => 503
  | .Generic => 500

/-- The route handler's error mapping (routes.py lines 82-89): status code
plus the `detail` string of the raised `HTTPException`. -/
def routeErrorResponse (error_msg : String) : Nat × String :=
  let m := pyLower error_msg
  if strContains m "timeout" then (504, error_msg)
  else if strContains m "unavailable" then (503, error_msg)
  else (500, "Review service error")

/-- The route handler's extra content-length guard (routes.py lines 59-64):
`true` exactly when the handler would answer 400 "content too long". -/
def contentTooLong (s : Settings) (req : ReviewRequest) : Bool :=
  decide (req.sales_page.length > s.max_content_length)

/-! ## Basic lemmas about the string model -/

/-- `containsSub` decides the contiguous-sublist relation. -/
theorem containsSub_iff (needle : List Char) :
    ∀ haystack, containsSub needle haystack = true ↔ needle <:+: haystack
  | [] => by
    simp [containsSub]
  | c :: t => by
    simp [containsSub, containsSub_iff needle t, List.infix_cons_iff]

/-- `strContains` decides substring occurrence. -/
theorem strContains_iff (haystack needle : String) :
    strContains haystack needle = true ↔ needle.data <:+: haystack.data :=
  containsSub_iff needle.data haystack.data

/-- Stripping never lengthens a string. -/
theorem pyStrip_length_le (s : String) : (pyStrip s).length ≤ s.length := by
  show (((s.data.dropWhile Char.isWhitespace).reverse.dropWhile
      Char.isWhitespace).reverse).length ≤ s.data.length
  rw [List.length_reverse]
  calc ((s.data.dropWhile Char.isWhitespace).reverse.dropWhile Char.isWhitespace).length
      ≤ (s.data.dropWhile Char.isWhitespace).reverse.length :=
        (List.dropWhile_sublist _).length_le
    _ = (s.data.dropWhile Char.isWhitespace).length := List.length_reverse _
    _ ≤ s.data.length := (List.dropWhile_sublist _).length_le

/-- A successful `find?` splits the list at the first element satisfying
the predicate: everything before it fails the predicate. -/
theorem find?_first {α : Type} {p : α → Bool} :
    ∀ {l : List α} {k : α}, l.find? p = some k →
      ∃ pre suf, l = pre ++ k :: suf ∧ (∀ a ∈ pre, p a = false) ∧ p k = true := by
  intro l
  induction l with
  | nil => intro k h; cases h
  | cons a t ih =>
    intro k h
    by_cases ha : p a = true
    · rw [List.find?_cons_of_pos _ ha] at h
      cases h
      exact ⟨[], t, rfl, by simp, ha⟩
    · rw [List.find?_cons_of_neg _ (by simpa using ha)] at h
      obtain ⟨pre, suf, hsplit, hpre, hk⟩ := ih h
      refine ⟨a :: pre, suf, by rw [hsplit, List.cons_append], ?_, hk⟩
      intro x hx
      rcases List.mem_cons.mp hx with rfl | hx2
      · simpa using ha
      · exact hpre x hx2

/-! ## Well-formedness of constructed records -/

/-- Whatever pydantic lets through satisfies the explanation bounds. -/
theorem mkReviewResponseStr_ok {d e r} (h : mkReviewResponseStr d e = .ok r) :
    10 ≤ r.explanation.length ∧ r.explanation.length ≤ 500 := by
  unfold mkReviewResponseStr at h
  split_ifs at h with hb
  cases h
  exact hb

/-- Whatever pydantic lets through from a raw value satisfies the bounds. -/
theorem mkReviewResponsePy_ok {d e r} (h : mkReviewResponsePy d e = .ok r) :
    10 ≤ r.explanation.length ∧ r.explanation.length ≤ 500 := by
  cases e <;> simp only [mkReviewResponsePy] at h <;>
    first
      | exact mkReviewResponseStr_ok h
      | cases h

/-- Every successful run of the `try` body of `_parse_ai_response` ends in
pydantic construction, so its record satisfies the explanation bounds. -/
theorem parseAiResponseTry_ok_wf {jo c r} (h : parseAiResponseTry jo c = .ok r) :
    10 ≤ r.explanation.length ∧ r.explanation.length ≤ 500 := by
  unfold parseAiResponseTry at h
  split at h
  · cases h
  · split at h
    · cases h
    · exact mkReviewResponsePy_ok h

/-- `_parse_ai_response` always produces an explanation of 10..500
characters: the safety handler's fixed message is in range, and every
non-raising run passes pydantic construction. -/
theorem parse_ai_response_wf (jo : Except Unit (List (String × PyVal))) (c : String) :
    10 ≤ (parse_ai_response jo c).explanation.length ∧
      (parse_ai_response jo c).explanation.length ≤ 500 := by
  unfold parse_ai_response
  split
  next r heq => exact parseAiResponseTry_ok_wf heq
  next u heq => decide

/-- Every record `_mock_review` can return satisfies the explanation
bounds (so its pydantic constructions never raise). -/
theorem mock_review_wf (product_name sales_page : String) :
    10 ≤ (mock_review product_name sales_page).explanation.length ∧
      (mock_review product_name sales_page).explanation.length ≤ 500 := by
  have hkw : ∀ k ∈ reject_keywords,
      10 ≤ (suspiciousExplanation k).length ∧ (suspiciousExplanation k).length ≤ 500 := by
    decide
  unfold mock_review
  split
  next kw heq => exact hkw kw (List.mem_of_find?_eq_some heq)
  next heq =>
    split
    next => decide
    next => decide

/-! ## Claim theorems -/

/-- C1. For every raw backend payload, including malformed ones, the
response normalizer `_parse_ai_response` never raises (it is a total Lean
function on every `json.loads` outcome and every content string) and
always returns a record whose explanation respects the 10..500 bounds;
whenever interpreting the payload raises inside the `try` body, the result
is the fixed safe rejection (code literal
"Unable to process review - rejected for safety"). -/
theorem C1_normalizer_totality (jo : Except Unit (List (String × PyVal)))
    (content : String) :
    (10 ≤ (parse_ai_response jo content).explanation.length ∧
      (parse_ai_response jo content).explanation.length ≤ 500) ∧
    (∀ u, parseAiResponseTry jo content = .error u →
      parse_ai_response jo content =
        ⟨.reject, "Unable to process review - rejected for safety"⟩) := by
  refine ⟨parse_ai_response_wf jo content, fun u h => ?_⟩
  unfold parse_ai_response
  rw [h]

/-- Witness for C1 at a concrete failing payload: content that looks like
JSON but whose parse raises. -/
theorem C1_normalizer_totality_witness :
    parseAiResponseTry (.error ()) "\x7bcorrupted !! json\x7d" = .error () ∧
    parse_ai_response (.error ()) "\x7bcorrupted !! json\x7d" =
      ⟨.reject, "Unable to process review - rejected for safety"⟩ :=
  ⟨rfl, (C1_normalizer_totality (.error ()) "\x7bcorrupted !! json\x7d").2 () rfl⟩

/-- C2. Every record produced by any code path — the heuristic fallback
classifier, structured-JSON normalization, free-text parsing, or the
safety fallback — has an explanation of length between 10 and 500. -/
theorem C2_explanation_length_invariant :
    (∀ product_name sales_page : String,
        10 ≤ (mock_review product_name sales_page).explanation.length ∧
          (mock_review product_name sales_page).explanation.length ≤ 500) ∧
    (∀ (jo : Except Unit (List (String × PyVal))) (content : String),
        10 ≤ (parse_ai_response jo content).explanation.length ∧
          (parse_ai_response jo content).explanation.length ≤ 500) :=
  ⟨mock_review_wf, parse_ai_response_wf⟩

/-- C5. The backend-timeout failure is classified `Timeout` (HTTP 504),
never `Generic`: the exception `review_product` raises on `TimeoutError`
carries the message "Review service timeout - please try again", and the
route handler's case-insensitive message inspection sends it to 504.  In
general, the route's status choice agrees with the spec's failure
taxonomy: "timeout" in the message gives `Timeout`/504, else
"unavailable" gives `Unavailable`/503, else `Generic`/500. -/
theorem C5_timeout_classification :
    (classify_failure (raisedMessage .timeoutErr) = .Timeout ∧
      routeErrorResponse (raisedMessage .timeoutErr) =
        (504, "Review service timeout - please try again")) ∧
    (∀ msg : String,
      (routeErrorResponse msg).fst = httpStatusOf (classify_failure msg) ∧
      (strContains (pyLower msg) "timeout" = true →
        classify_failure msg = .Timeout) ∧
      (strContains (pyLower msg) "timeout" = false →
        strContains (pyLower msg) "unavailable" = true →
          classify_failure msg = .Unavailable) ∧
      (strContains (pyLower msg) "timeout" = false →
        strContains (pyLower msg) "unavailable" = false →
          classify_failure msg = .Generic)) := by
  refine ⟨⟨by decide, by decide⟩, fun msg => ?_⟩
  unfold routeErrorResponse classify_failure httpStatusOf
  rcases ht : strContains (pyLower msg) "timeout" <;>
    rcases hu : strContains (pyLower msg) "unavailable" <;>
      simp [ht, hu]

/-- A rejection phrase occurs in the content exactly when the rejection
scan of `_mock_review` finds one. -/
theorem firstRejectMatch_isSome {c : String}
    (h : ∃ rk ∈ reject_keywords, strContains c rk = true) :
    ∃ kw, firstRejectMatch c = some kw := by
  rw [← Option.isSome_iff_exists, firstRejectMatch, List.find?_isSome]
  simpa using h

/-- An approval phrase occurs in the content exactly when the approval
scan of `_mock_review` finds one. -/
theorem firstApproveMatch_isSome {c : String}
    (h : ∃ ak ∈ approve_keywords, strContains c ak = true) :
    ∃ kw, firstApproveMatch c = some kw := by
  rw [← Option.isSome_iff_exists, firstApproveMatch, List.find?_isSome]
  simpa using h

/-- If no rejection phrase occurs, the rejection scan finds nothing. -/
theorem firstRejectMatch_eq_none {c : String}
    (h : ∀ rk ∈ reject_keywords, strContains c rk = false) :
    firstRejectMatch c = none := by
  rw [firstRejectMatch, List.find?_eq_none]
  intro x hx
  simp [h x hx]

/-- If no approval phrase occurs, the approval scan finds nothing. -/
theorem firstApproveMatch_eq_none {c : String}
    (h : ∀ ak ∈ approve_keywords, strContains c ak = false) :
    firstApproveMatch c = none := by
  rw [firstApproveMatch, List.find?_eq_none]
  intro x hx
  simp [h x hx]

/-- C3. The heuristic fallback classifier follows the strict three-tier
precedence over the lower-cased concatenation of inputs: whenever both a
rejection phrase and an approval phrase occur, the verdict is `reject`;
whenever any rejection phrase occurs, the result names the first matching
rejection phrase in list order (everything before it in the list does not
occur); only with no rejection match is the approval list scanned, the
first match giving the fixed educational approval; and with neither list
matching, the fixed requires-manual-review rejection is returned. -/
theorem C3_mock_three_tier (product_name sales_page : String) :
    ((∃ rk ∈ reject_keywords,
        strContains (content_lower product_name sales_page) rk = true) →
      (∃ ak ∈ approve_keywords,
        strContains (content_lower product_name sales_page) ak = true) →
      (mock_review product_name sales_page).decision = .reject) ∧
    ((∃ rk ∈ reject_keywords,
        strContains (content_lower product_name sales_page) rk = true) →
      ∃ pre suf kw, reject_keywords = pre ++ kw :: suf ∧
        strContains (content_lower product_name sales_page) kw = true ∧
        (∀ k ∈ pre, strContains (content_lower product_name sales_page) k = false) ∧
        mock_review product_name sales_page = ⟨.reject, suspiciousExplanation kw⟩) ∧
    ((∀ rk ∈ reject_keywords,
        strContains (content_lower product_name sales_page) rk = false) →
      (∃ ak ∈ approve_keywords,
        strContains (content_lower product_name sales_page) ak = true) →
      mock_review product_name sales_page =
        ⟨.approve, "Product appears educational and evidence-based."⟩) ∧
    ((∀ rk ∈ reject_keywords,
        strContains (content_lower product_name sales_page) rk = false) →
      (∀ ak ∈ approve_keywords,
        strContains (content_lower product_name sales_page) ak = false) →
      mock_review product_name sales_page =
        ⟨.reject,
          "Product requires manual review to ensure compliance and quality standards."⟩) := by
  have conj2 : (∃ rk ∈ reject_keywords,
      strContains (content_lower product_name sales_page) rk = true) →
      ∃ pre suf kw, reject_keywords = pre ++ kw :: suf ∧
        strContains (content_lower product_name sales_page) kw = true ∧
        (∀ k ∈ pre, strContains (content_lower product_name sales_page) k = false) ∧
        mock_review product_name sales_page = ⟨.reject, suspiciousExplanation kw⟩ := by
    intro hr
    obtain ⟨kw, heq⟩ := firstRejectMatch_isSome hr
    obtain ⟨pre, suf, hsplit, hpre, hkw⟩ := find?_first heq
    exact ⟨pre, suf, kw, hsplit, hkw, hpre, by simp [mock_review, heq]⟩
  refine ⟨fun hr _ => ?_, conj2, fun hrn ha => ?_, fun hrn han => ?_⟩
  · obtain ⟨pre, suf, kw, _, _, _, hmr⟩ := conj2 hr
    rw [hmr]
  · obtain ⟨ak, hak⟩ := firstApproveMatch_isSome ha
    simp [mock_review, firstRejectMatch_eq_none hrn, hak]
  · simp [mock_review, firstRejectMatch_eq_none hrn, firstApproveMatch_eq_none han]

/-- Witness for C3: one input per tier. -/
theorem C3_mock_three_tier_witness :
    (mock_review "Keto Promise" "lose 15kg with this evidence-based course").decision =
      .reject ∧
    mock_review "Mindful" "an evidence-based reading list" =
      ⟨.approve, "Product appears educational and evidence-based."⟩ ∧
    mock_review "Plain" "ordinary item" =
      ⟨.reject,
        "Product requires manual review to ensure compliance and quality standards."⟩ :=
  ⟨(C3_mock_three_tier "Keto Promise" "lose 15kg with this evidence-based course").1
      (by decide) (by decide),
   (C3_mock_three_tier "Mindful" "an evidence-based reading list").2.2.1
      (by decide) (by decide),
   (C3_mock_three_tier "Plain" "ordinary item").2.2.2 (by decide) (by decide)⟩

/-- C10. The phrase named in a rejection explanation of the heuristic is
never "100% guaranteed": "guaranteed" precedes it in the ordered rejection
list and is a substring of it, so the scan always stops earlier. -/
theorem C10_redundant_phrase_never_first_match (product_name sales_page : String) :
    firstRejectMatch (content_lower product_name sales_page) ≠ some "100% guaranteed" := by
  intro h
  by_cases hg :
      strContains (content_lower product_name sales_page) "guaranteed" = true
  · unfold firstRejectMatch reject_keywords at h
    rw [List.find?_cons_of_pos _ hg] at h
    exact absurd h (by decide)
  · have h100 :
        strContains (content_lower product_name sales_page) "100% guaranteed" = true :=
      List.find?_some h
    apply hg
    rw [strContains_iff] at h100 ⊢
    exact List.IsInfix.trans (by decide) h100

/-- Witness for C10 at an input actually containing "100% guaranteed". -/
theorem C10_redundant_phrase_never_first_match_witness :
    firstRejectMatch (content_lower "Offer" "this is 100% guaranteed to work") ≠
      some "100% guaranteed" :=
  C10_redundant_phrase_never_first_match "Offer" "this is 100% guaranteed to work"

/-- C4 counterexample.  For the blob "\x7bapprove\x7d" the JSON parse is
attempted (the blob is brace-delimited) and fails (`json.loads` raises on
it, modelled by the `.error ()` outcome).  The claim predicts a fallback
to line scanning — which on this blob would yield "approve" — but the
code instead returns the fixed safe rejection: a failed JSON parse never
falls back to line scanning. -/
theorem C4_counterexample :
    scanLines (pySplitNL (pyLower "\x7bapprove\x7d")) = "approve" ∧
    parse_ai_response (.error ()) "\x7bapprove\x7d" =
      ⟨.reject, "Unable to process review - rejected for safety"⟩ ∧
    (parse_ai_response (.error ()) "\x7bapprove\x7d").decision ≠ .approve := by
  exact ⟨by decide, by decide, by decide⟩

/-- C4 amended.  In free-text mode, JSON parsing is attempted only when
the blob both starts with "\x7b" and ends with "\x7d"; for every other
blob the invoker scans line-by-line in order (first line containing
"approve" without "reject" gives approve, first line containing "reject"
gives reject, default reject) with the entire raw blob as candidate
explanation.  When the blob is brace-delimited and its JSON parse fails,
the result is the fixed safe rejection record, not a line-scan fallback. -/
theorem C4_freetext_fallback (jo : Except Unit (List (String × PyVal)))
    (content : String) :
    ((pyStartsWith content "\x7b" && pyEndsWith content "\x7d") = false →
      extractCandidates jo content =
        .ok (scanLines (pySplitNL (pyLower content)), .str content)) ∧
    (∀ u, (pyStartsWith content "\x7b" && pyEndsWith content "\x7d") = true →
      jo = .error u →
      parse_ai_response jo content =
        ⟨.reject, "Unable to process review - rejected for safety"⟩) := by
  constructor
  · intro hb
    unfold extractCandidates
    simp [hb]
  · intro u hb hjo
    subst hjo
    unfold parse_ai_response parseAiResponseTry extractCandidates
    simp [hb]

/-- Witness for C4's amended statement: a plain-text blob takes the
line-scan branch, and an unparseable brace-delimited blob takes the safe
fallback. -/
theorem C4_freetext_fallback_witness :
    extractCandidates (.ok []) "please approve this product" =
      .ok (scanLines (pySplitNL (pyLower "please approve this product")),
        .str "please approve this product") ∧
    parse_ai_response (.error ()) "\x7bnot valid json\x7d" =
      ⟨.reject, "Unable to process review - rejected for safety"⟩ :=
  ⟨(C4_freetext_fallback (.ok []) "please approve this product").1 (by decide),
   (C4_freetext_fallback (.error ()) "\x7bnot valid json\x7d").2 () (by decide) rfl⟩

/-- C6. Whenever the candidate decision extracted from a structured
payload is a string that is not, case-insensitively, exactly "approve" or
"reject", the normalizer forces `reject` and replaces the explanation
with the fixed safety message (code literal
"Unable to determine approval status - rejected for safety"), and the
result satisfies the length invariant. -/
theorem C6_unrecognized_decision_forced_reject
    (data : List (String × PyVal)) (content : String) (s : String)
    (hb : (pyStartsWith content "\x7b" && pyEndsWith content "\x7d") = true)
    (hd : dictGet data "decision" (.str "") = .str s)
    (ha : pyLower s ≠ "approve") (hr : pyLower s ≠ "reject") :
    parse_ai_response (.ok data) content =
      ⟨.reject, "Unable to determine approval status - rejected for safety"⟩ ∧
    10 ≤ (parse_ai_response (.ok data) content).explanation.length ∧
    (parse_ai_response (.ok data) content).explanation.length ≤ 500 := by
  have hex : extractCandidates (.ok data) content =
      .ok (pyLower s, dictGet data "explanation" (.str "")) := by
    unfold extractCandidates
    simp [hb, hd]
  have hnorm : normalizeCandidates (pyLower s)
      (dictGet data "explanation" (.str "")) =
      .ok ("reject", .str "Unable to determine approval status - rejected for safety") := by
    unfold normalizeCandidates
    rw [if_neg (by simp [ha, hr])]
    rfl
  have hfull : parse_ai_response (.ok data) content =
      ⟨.reject, "Unable to determine approval status - rejected for safety"⟩ := by
    unfold parse_ai_response parseAiResponseTry
    simp [hex, hnorm]
    decide
  exact ⟨hfull, by rw [hfull]; decide, by rw [hfull]; decide⟩

/-- Witness for C6 at the spec's own scenario payload. -/
theorem C6_unrecognized_decision_forced_reject_witness :
    parse_ai_response
      (.ok [("decision", .str "MAYBE"), ("explanation", .str "")])
      "\x7b\x22decision\x22: \x22MAYBE\x22, \x22explanation\x22: \x22\x22\x7d" =
      ⟨.reject, "Unable to determine approval status - rejected for safety"⟩ :=
  (C6_unrecognized_decision_forced_reject
    [("decision", .str "MAYBE"), ("explanation", .str "")]
    "\x7b\x22decision\x22: \x22MAYBE\x22, \x22explanation\x22: \x22\x22\x7d"
    "MAYBE" (by decide) rfl (by decide) (by decide)).1

/-- C7. With a recognized decision token, the clamp step of the
normalizer truncates every over-long string explanation to its first 497
characters plus "...", landing exactly on length 500 (inside the 10..500
invariant), and replaces every under-short string explanation by the
fixed template message that names the resolved decision and is itself
length-valid. -/
theorem C7_explanation_clamping (d : String) (s : String)
    (hd : d = "approve" ∨ d = "reject") :
    (s.length > 500 →
      normalizeCandidates d (.str s) = .ok (d, .str (pyTake s 497 ++ "...")) ∧
      (pyTake s 497 ++ "...").length = 500) ∧
    (s.length < 10 →
      normalizeCandidates d (.str s) =
        .ok (d, .str ("Product " ++ d ++ "d based on content analysis.")) ∧
      strContains ("Product " ++ d ++ "d based on content analysis.") d = true ∧
      10 ≤ ("Product " ++ d ++ "d based on content analysis.").length ∧
      ("Product " ++ d ++ "d based on content analysis.").length ≤ 500) := by
  have hlen : ∀ h : s.length > 500, (pyTake s 497 ++ "...").length = 500 := by
    intro h
    have hdata : s.data.length > 500 := h
    have h497 : (pyTake s 497).length = 497 := by
      show (s.data.take 497).length = 497
      rw [List.length_take]
      omega
    rw [String.length_append, h497]
    rfl
  have hclamp : ∀ h : s.length > 500,
      normalizeCandidates d (.str s) = .ok (d, .str (pyTake s 497 ++ "...")) := by
    intro h
    unfold normalizeCandidates
    rw [if_pos hd]
    simp only [pyLen]
    rw [if_pos h]
    rfl
  have hshort : ∀ h : s.length < 10,
      normalizeCandidates d (.str s) =
        .ok (d, .str ("Product " ++ d ++ "d based on content analysis.")) := by
    intro h
    unfold normalizeCandidates
    rw [if_pos hd]
    simp only [pyLen]
    rw [if_neg (by omega), if_pos h]
  rcases hd with rfl | rfl
  · exact ⟨fun h => ⟨hclamp h, hlen h⟩,
      fun h => ⟨hshort h, by decide, by decide, by decide⟩⟩
  · exact ⟨fun h => ⟨hclamp h, hlen h⟩,
      fun h => ⟨hshort h, by decide, by decide, by decide⟩⟩

/-- Witness for C7: a 501-character explanation is truncated to exactly
500 characters, and a short explanation becomes the decision-naming
template. -/
theorem C7_explanation_clamping_witness :
    (normalizeCandidates "approve" (.str ⟨List.replicate 501 'x'⟩) =
        .ok ("approve", .str (pyTake ⟨List.replicate 501 'x'⟩ 497 ++ "...")) ∧
      (pyTake (⟨List.replicate 501 'x'⟩ : String) 497 ++ "...").length = 500) ∧
    (normalizeCandidates "reject" (.str "tiny") =
        .ok ("reject", .str ("Product " ++ "reject" ++ "d based on content analysis.")) ∧
      strContains ("Product " ++ "reject" ++ "d based on content analysis.") "reject" = true ∧
      10 ≤ ("Product " ++ "reject" ++ "d based on content analysis.").length ∧
      ("Product " ++ "reject" ++ "d based on content analysis.").length ≤ 500) :=
  ⟨(C7_explanation_clamping "approve" ⟨List.replicate 501 'x'⟩ (Or.inl rfl)).1
      (by show (List.replicate 501 'x').length > 500
          rw [List.length_replicate]
          omega),
   (C7_explanation_clamping "reject" "tiny" (Or.inr rfl)).2 (by decide)⟩

/-- C8. `ReviewRequest` construction fails for every `sales_page`
strictly shorter than 10 characters — even ones that are non-empty after
trimming — because the pydantic `min_length=10` constraint runs on the
raw value before the whitespace validator. -/
theorem C8_short_sales_page_rejected (product_name sales_page : String)
    (h : sales_page.length < 10) :
    (mkReviewRequest product_name sales_page).toOption = none := by
  unfold mkReviewRequest
  split_ifs <;> rfl

/-- Witness for C8: "abc" is non-empty after trimming yet rejected. -/
theorem C8_short_sales_page_rejected_witness :
    (pyStrip "abc").length = 3 ∧
    (mkReviewRequest "Valid Product" "abc").toOption = none :=
  ⟨by decide, C8_short_sales_page_rejected "Valid Product" "abc" (by decide)⟩

/-- C9. Under the default configuration (`max_content_length = 10000`,
equal to the model's `max_length` for `sales_page`), the route handler's
400 "content too long" branch is unreachable: every validated request
stores a stripped `sales_page` of at most 10000 characters, so the
handler's length guard is always false; and every raw `sales_page` longer
than 10000 characters is already rejected by `ReviewRequest` validation
before the handler body runs. -/
theorem C9_length_guard_unreachable :
    defaultSettings.max_content_length = 10000 ∧
    (∀ (product_name sales_page : String) (req : ReviewRequest),
      mkReviewRequest product_name sales_page = .ok req →
      contentTooLong defaultSettings req = false) ∧
    (∀ product_name sales_page : String, sales_page.length > 10000 →
      (mkReviewRequest product_name sales_page).toOption = none) := by
  refine ⟨rfl, fun product_name sales_page req h => ?_, fun product_name sales_page h => ?_⟩
  · unfold mkReviewRequest at h
    split_ifs at h with h1 h2 h3 h4 h5 h6
    cases h
    have hle : (pyStrip sales_page).length ≤ sales_page.length := pyStrip_length_le _
    simp only [contentTooLong, defaultSettings, decide_eq_false_iff_not]
    omega
  · unfold mkReviewRequest
    split_ifs <;> rfl

/-- Witness for C9 at a concrete validated request and a concrete
oversized raw input. -/
theorem C9_length_guard_unreachable_witness :
    contentTooLong defaultSettings
      ⟨"Valid Product", "a perfectly ordinary sales page"⟩ = false ∧
    (mkReviewRequest "Valid Product" (⟨List.replicate 10001 'x'⟩ : String)).toOption =
      none :=
  ⟨C9_length_guard_unreachable.2.1 "Valid Product" "a perfectly ordinary sales page"
      ⟨"Valid Product", "a perfectly ordinary sales page"⟩ rfl,
   C9_length_guard_unreachable.2.2 "Valid Product" (⟨List.replicate 10001 'x'⟩ : String)
      (by show (List.replicate 10001 'x').length > 10000
          rw [List.length_replicate]
          omega)⟩

/-- Witness for C5: a raised message containing "TIMEOUT" in arbitrary
case is classified `Timeout`. -/
theorem C5_timeout_classification_witness :
    classify_failure "backend TIMEOUT after 30s" = .Timeout ∧
    (routeErrorResponse "backend TIMEOUT after 30s").fst = 504 :=
  ⟨(C5_timeout_classification.2 "backend TIMEOUT after 30s").2.1 (by decide),
   by
    rw [(C5_timeout_classification.2 "backend TIMEOUT after 30s").1,
      (C5_timeout_classification.2 "backend TIMEOUT after 30s").2.1 (by decide)]
    decide⟩

/-! ## Sanity checks of the embedding on concrete inputs -/

example :
    mock_review "Keto" "Lose 15kg in 21 days! 100% guaranteed" =
      ⟨.reject, suspiciousExplanation "guaranteed"⟩ := by decide

example :
    mock_review "Mindful Productivity Course" "Evidence-based strategies." =
      ⟨.approve, "Product appears educational and evidence-based."⟩ := by decide

example :
    mock_review "Plain" "nothing special here" =
      ⟨.reject,
        "Product requires manual review to ensure compliance and quality standards."⟩ := by
  decide

example :
    parse_ai_response (.ok [("decision", .str "approve"),
        ("explanation", .str "Solid educational product.")])
      "\x7b\x22decision\x22: \x22approve\x22\x7d" =
      ⟨.approve, "Solid educational product."⟩ := by decide

example :
    parse_ai_response (.error ()) "I think we should approve this one" =
      ⟨.approve, "I think we should approve this one"⟩ := by decide

example :
    parse_ai_response (.error ()) "bad" =
      ⟨.reject, "Product rejectd based on content analysis."⟩ := by decide

example : classify_failure (raisedMessage .openAIErr) = .Unavailable := by decide

example : classify_failure "Something Timeout-ish and unavailable" = .Timeout := by decide
